import Mathlib

/-!
Shallow embedding of the survey-form rendering engine from `src/main.rs`
(repository `umfragetool-rust`), together with proofs of the specified
properties of the identifier scheme, the renderers, and the
serialization round trip.

Machine integers: Rust `i8` is modelled as an `Int` constrained to
`[-128, 127]`; Rust `f32` values are carried abstractly by their 32-bit
patterns (no claim inspects float arithmetic), and their textual display
is modelled by an injective representation function.
-/

namespace Umfrage

/-- Rust `i8`: an integer in `[-128, 127]`. -/
abbrev I8 : Type := {n : Int // -128 ≤ n ∧ n ≤ 127}

/-- Rust `f32`, carried by its 32-bit pattern; no claim inspects float
arithmetic, so the payload is opaque to the development. -/
abbrev F32 : Type := {n : Nat // n < 4294967296}

/-- Display of an `f32` value, modelled as an injective representation of
its bit pattern (Rust shows a decimal rendering; no claim depends on the
exact text). -/
def F32.repr (x : F32) : String := Nat.repr x.val

/-- The `QuestionType` enum of `src/main.rs` (lines 68-89), including the
misspelled variant `ContinousNumeric`.  The Rust
`HashMap<i8, String>` of `DiscreteNumeric` is modelled as an association
list; the renderer only ever looks keys up, never iterates the map. -/
inductive QuestionType where
  | DiscreteNumeric (bounds : I8 × I8) (num_descriptions : List (I8 × String))
  | ContinousNumeric (bounds : Option (F32 × F32))
  | SingleChoice (answers : List String) (custom_answer : Bool)
  | MultipleChoice (answers : List String) (custom_answer : Bool)
  | Text (is_long : Bool)
deriving DecidableEq

/-- The `Question` struct of `src/main.rs` (lines 56-60). -/
structure Question where
  title : String
  spec : QuestionType
deriving DecidableEq

/-- The `QuestionSet` struct of `src/main.rs` (lines 33-38). -/
structure QuestionSet where
  title : String
  description : String
  questions : List Question
deriving DecidableEq

/-- The `Form` struct of `src/main.rs` (lines 11-16). -/
structure Form where
  title : String
  description : String
  groups : List QuestionSet
deriving DecidableEq

/-- `HashMap::get(&val)` on the association-list model of
`num_descriptions`: the first binding of the key, if any. -/
def lookupKey (v : Int) : List (I8 × String) → Option String
  | [] => none
  | kv :: rest => if kv.1.val = v then some kv.2 else lookupKey v rest

/-- The Rust inclusive range `min..=max`, ascending, empty when
`lo > hi`. -/
def rangeIncl (lo hi : Int) : List Int :=
  (List.range (hi + 1 - lo).toNat).map (fun (k : Nat) => lo + (k : Int))

/-- The `stringified` label of the `DiscreteNumeric` arm
(`src/main.rs` lines 110-113): `"<value> (<description>)"` when the map
holds the value, else the bare stringified value. -/
def stringified (descs : List (I8 × String)) (v : Int) : String :=
  match lookupKey v descs with
  | some d => Int.repr v ++ " (" ++ d ++ ")"
  | none => Int.repr v

/-- One radio option of the `DiscreteNumeric` arm (`src/main.rs`
line 114). -/
def discreteOption (id : String) (v : Int) (lbl : String) : String :=
  "<input type=\"radio\" name=\"" ++ id ++ "\" id=\"" ++ id ++ "-" ++ Int.repr v
    ++ "\" value=\"" ++ Int.repr v ++ "\"><label for=\"" ++ id ++ "-" ++ Int.repr v
    ++ "\">" ++ lbl ++ "</label>"

/-- The option list of the `DiscreteNumeric` arm (`src/main.rs`
lines 105-116), before joining with newlines. -/
def discreteOptions (mn mx : I8) (descs : List (I8 × String)) (id : String) :
    List String :=
  (rangeIncl mn.val mx.val).map (fun v => discreteOption id v (stringified descs v))

/-- The option list of the `SingleChoice` arm (`src/main.rs`
lines 120-125). -/
def singleOptions (answers : List String) (id : String) : List String :=
  answers.enum.map (fun p =>
    "<input type=\"radio\" name=\"" ++ id ++ "\" id=\"" ++ id ++ "-" ++ Nat.repr p.1
      ++ "\" value=\"" ++ p.2 ++ "\"><label for=\"" ++ id ++ "-" ++ Nat.repr p.1
      ++ "\">" ++ p.2 ++ "</label>")

/-- The option list of the `MultipleChoice` arm (`src/main.rs`
lines 130-135). -/
def multiOptions (answers : List String) (id : String) : List String :=
  answers.enum.map (fun p =>
    "<input type=\"checkbox\" name=\"" ++ id ++ "\" id=\"" ++ id ++ "-" ++ Nat.repr p.1
      ++ "\" value=\"" ++ p.2 ++ "\"><label for=\"" ++ id ++ "-" ++ Nat.repr p.1
      ++ "\">" ++ p.2 ++ "</label>")

/-- The `custom_string` of the `SingleChoice` arm (`src/main.rs`
lines 118-119): a leading newline, an extra radio input in the shared
group, and a text field whose `onkeyup` copies its value into the extra
input. -/
def customSingle (id : String) : String :=
  "\n<input type=\"radio\" name=\"" ++ id ++ "\" id=\"" ++ id
    ++ "-c\" value=\"\"><input type=\"text\" id=\"" ++ id
    ++ "-t\" onkeyup=\"document.getElementById(\x27" ++ id
    ++ "-c\x27).setAttribute(\x27value\x27, this.value)\">"

/-- The `custom_string` of the `MultipleChoice` arm (`src/main.rs`
lines 128-129). -/
def customMulti (id : String) : String :=
  "\n<input type=\"checkbox\" name=\"" ++ id ++ "\" id=\"" ++ id
    ++ "-c\" value=\"\"><input type=\"text\" id=\"" ++ id
    ++ "-t\" onkeyup=\"document.getElementById(\x27" ++ id
    ++ "-c\x27).setAttribute(\x27value\x27, this.value)\">"

/-- `impl Renderable for QuestionType` (`src/main.rs` lines 91-139). -/
def QuestionType.render : QuestionType → String → String
  | .Text is_long, id =>
      if is_long then "<textarea id=\"" ++ id ++ "\"></textarea>"
      else "<input type=\"text\" id=\"" ++ id ++ "\">"
  | .ContinousNumeric (some (mn, mx)), id =>
      "<input type=\"range\" min=\"" ++ F32.repr mn ++ "\" max=\"" ++ F32.repr mx
        ++ "\" class=\"slider\" id=\"" ++ id ++ "\">"
  | .ContinousNumeric none, id =>
      "<input type=\"number\" id=\"" ++ id ++ "\">"
  | .DiscreteNumeric (mn, mx) descs, id =>
      String.intercalate "\n" (discreteOptions mn mx descs id)
  | .SingleChoice answers custom_answer, id =>
      String.intercalate "\n" (singleOptions answers id)
        ++ (if custom_answer then customSingle id else "")
  | .MultipleChoice answers custom_answer, id =>
      String.intercalate "\n" (multiOptions answers id)
        ++ (if custom_answer then customMulti id else "")

/-- The identifier scheme used by `Form::render` and
`QuestionSet::render` (`format!` at `src/main.rs` lines 27 and 50):
parent identifier, a separator, and the decimal index. -/
def childId (parent : String) (idx : Nat) : String :=
  parent ++ "-" ++ Nat.repr idx

/-- `impl Renderable for Question` (`src/main.rs` lines 62-66). -/
def Question.render (q : Question) (id : String) : String :=
  "<h3>" ++ q.title ++ "</h3>" ++ q.spec.render id

/-- `impl Renderable for QuestionSet` (`src/main.rs` lines 40-54). -/
def QuestionSet.render (s : QuestionSet) (pre : String) : String :=
  "<h2>" ++ s.title ++ "</h2><p>" ++ s.description ++ "</p><form>"
    ++ String.intercalate "\n</br>\n"
        (s.questions.enum.map (fun p => Question.render p.2 (childId pre p.1)))
    ++ "</form>"

/-- `impl Renderable for Form` (`src/main.rs` lines 18-31). -/
def Form.render (f : Form) (pre : String) : String :=
  "<html style=\"font-family=sans-serif\"><body><h1>" ++ f.title ++ "</h1><p>"
    ++ f.description ++ "</p><div class=\"content\"><pre>"
    ++ String.intercalate "\n"
        (f.groups.enum.map (fun p => QuestionSet.render p.2 (childId pre p.1)))
    ++ "</pre></div></body></html>"

/-! ## Helper lemmas -/

theorem intercalate_singleton (s x : String) : String.intercalate s [x] = x := rfl

theorem intercalate_nil (s : String) : String.intercalate s [] = "" := rfl

/-- Decimal value of a digit character (inverse of `Nat.digitChar` below
10). -/
def digitVal (c : Char) : Nat := c.toNat - 48

theorem digitVal_digitChar (d : Nat) (h : d < 10) : digitVal (Nat.digitChar d) = d := by
  interval_cases d <;> decide

/-- Value of a decimal digit string, most significant first. -/
def valOfDigits (cs : List Char) : Nat := cs.foldl (fun acc c => acc * 10 + digitVal c) 0

theorem valOfDigits_append_single (xs : List Char) (c : Char) :
    valOfDigits (xs ++ [c]) = valOfDigits xs * 10 + digitVal c := by
  simp [valOfDigits, List.foldl_append]

theorem toDigitsCore_shift (b : Nat) :
    ∀ (fuel n : Nat) (ds : List Char),
      Nat.toDigitsCore b fuel n ds = Nat.toDigitsCore b fuel n [] ++ ds := by
  intro fuel
  induction fuel with
  | zero => intro n ds; simp [Nat.toDigitsCore]
  | succ f ih =>
    intro n ds
    simp only [Nat.toDigitsCore]
    by_cases h : n / b = 0
    · simp [h]
    · simp only [h, if_false]
      rw [ih (n / b) (Nat.digitChar (n % b) :: ds), ih (n / b) [Nat.digitChar (n % b)]]
      simp

theorem valOfDigits_toDigitsCore :
    ∀ (fuel n : Nat), n < fuel → valOfDigits (Nat.toDigitsCore 10 fuel n []) = n := by
  intro fuel
  induction fuel with
  | zero => intro n hn; omega
  | succ f ih =>
    intro n hn
    simp only [Nat.toDigitsCore]
    by_cases h : n / 10 = 0
    · simp only [h, if_true]
      simp [valOfDigits, digitVal_digitChar (n % 10) (by omega)]
      omega
    · simp only [h, if_false]
      rw [toDigitsCore_shift 10 f (n / 10) [Nat.digitChar (n % 10)]]
      rw [valOfDigits_append_single]
      rw [ih (n / 10) (by omega)]
      rw [digitVal_digitChar (n % 10) (by omega)]
      omega

/-- The decimal representation of a natural number is injective. -/
theorem natRepr_inj (m n : Nat) (h : Nat.repr m = Nat.repr n) : m = n := by
  have h2 : Nat.toDigits 10 m = Nat.toDigits 10 n := congrArg String.data h
  have hm := valOfDigits_toDigitsCore (m + 1) m (by omega)
  have hn := valOfDigits_toDigitsCore (n + 1) n (by omega)
  rw [← hm, ← hn]
  exact congrArg valOfDigits h2

/-! ## Claim theorems -/

/-- C5: for every Question and every identifier, the rendered output is the
question title as a sub-heading followed immediately by the fragment produced
by rendering the QuestionType with the same, unmodified identifier. -/
theorem question_render_same_identifier (q : Question) (id : String) :
    Question.render q id = "<h3>" ++ q.title ++ "</h3>" ++ QuestionType.render q.spec id := rfl

/-- C9: for inverted bounds (min > max) the DiscreteNumeric renderer is total
and returns the empty fragment (zero options). -/
theorem discrete_inverted_bounds_empty (mn mx : I8) (descs : List (I8 × String))
    (id : String) (h : mx.val < mn.val) :
    QuestionType.render (.DiscreteNumeric (mn, mx) descs) id = ""
      ∧ discreteOptions mn mx descs id = [] := by
  have h0 : (mx.val + 1 - mn.val).toNat = 0 := by omega
  constructor
  · simp [QuestionType.render, discreteOptions, rangeIncl, h0, String.intercalate]
  · simp [discreteOptions, rangeIncl, h0]

/-- Witness for C9 at bounds (5, 3). -/
theorem discrete_inverted_bounds_empty_witness :
    QuestionType.render (.DiscreteNumeric (⟨5, by decide⟩, ⟨3, by decide⟩) []) "q" = ""
      ∧ discreteOptions ⟨5, by decide⟩ ⟨3, by decide⟩ [] "q" = [] :=
  discrete_inverted_bounds_empty ⟨5, by decide⟩ ⟨3, by decide⟩ [] "q" (by decide)

/-- C10: the DiscreteNumeric bounds are 8-bit signed integers, so the renderer
emits at most 256 options regardless of input; the enumeration is always
finite. -/
theorem discrete_options_at_most_256 (mn mx : I8) (descs : List (I8 × String))
    (id : String) :
    (discreteOptions mn mx descs id).length ≤ 256
      ∧ QuestionType.render (.DiscreteNumeric (mn, mx) descs) id
          = String.intercalate "\n" (discreteOptions mn mx descs id) := by
  refine ⟨?_, rfl⟩
  have h1 := mn.2
  have h2 := mx.2
  simp only [discreteOptions, rangeIncl, List.length_map, List.length_range]
  omega

/-- C2: SingleChoice and MultipleChoice render exactly one input per answer,
in sequence order, each with the shared grouping name and a per-option element
identifier built from its index; when custom_answer is true exactly one extra
input plus paired free-text field is appended, and when false no extra pair
appears. -/
theorem choice_render_options (answers : List String) (id : String) :
    (singleOptions answers id).length = answers.length
    ∧ (multiOptions answers id).length = answers.length
    ∧ (∀ i : Nat, (singleOptions answers id)[i]? = (answers[i]?).map (fun v =>
        "<input type=\"radio\" name=\"" ++ id ++ "\" id=\"" ++ id ++ "-" ++ Nat.repr i
          ++ "\" value=\"" ++ v ++ "\"><label for=\"" ++ id ++ "-" ++ Nat.repr i
          ++ "\">" ++ v ++ "</label>"))
    ∧ (∀ i : Nat, (multiOptions answers id)[i]? = (answers[i]?).map (fun v =>
        "<input type=\"checkbox\" name=\"" ++ id ++ "\" id=\"" ++ id ++ "-" ++ Nat.repr i
          ++ "\" value=\"" ++ v ++ "\"><label for=\"" ++ id ++ "-" ++ Nat.repr i
          ++ "\">" ++ v ++ "</label>"))
    ∧ QuestionType.render (.SingleChoice answers true) id
        = String.intercalate "\n" (singleOptions answers id) ++ customSingle id
    ∧ QuestionType.render (.SingleChoice answers false) id
        = String.intercalate "\n" (singleOptions answers id)
    ∧ QuestionType.render (.MultipleChoice answers true) id
        = String.intercalate "\n" (multiOptions answers id) ++ customMulti id
    ∧ QuestionType.render (.MultipleChoice answers false) id
        = String.intercalate "\n" (multiOptions answers id) := by
  refine ⟨?_, ?_, ?_, ?_, ?_, ?_, ?_, ?_⟩
  · simp [singleOptions, List.length_map, List.enum_length]
  · simp [multiOptions, List.length_map, List.enum_length]
  · intro i
    simp only [singleOptions, List.getElem?_map, List.getElem?_enum]
    cases answers[i]? <;> simp
  · intro i
    simp only [multiOptions, List.getElem?_map, List.getElem?_enum]
    cases answers[i]? <;> simp
  · simp [QuestionType.render]
  · simp [QuestionType.render]
  · simp [QuestionType.render]
  · simp [QuestionType.render]

/-- C7: with custom_answer = true the appended custom pair is an extra
selectable input sharing the grouping name with the regular options, plus a
free-text field whose onkeyup binding copies the text into the extra input. -/
theorem choice_custom_pair (answers : List String) (id : String) :
    QuestionType.render (.SingleChoice answers true) id
      = QuestionType.render (.SingleChoice answers false) id
        ++ "\n<input type=\"radio\" name=\"" ++ id ++ "\" id=\"" ++ id
        ++ "-c\" value=\"\"><input type=\"text\" id=\"" ++ id
        ++ "-t\" onkeyup=\"document.getElementById(\x27" ++ id
        ++ "-c\x27).setAttribute(\x27value\x27, this.value)\">"
    ∧ QuestionType.render (.MultipleChoice answers true) id
      = QuestionType.render (.MultipleChoice answers false) id
        ++ "\n<input type=\"checkbox\" name=\"" ++ id ++ "\" id=\"" ++ id
        ++ "-c\" value=\"\"><input type=\"text\" id=\"" ++ id
        ++ "-t\" onkeyup=\"document.getElementById(\x27" ++ id
        ++ "-c\x27).setAttribute(\x27value\x27, this.value)\">"
    ∧ (∀ i : Nat, (singleOptions answers id)[i]? = (answers[i]?).map (fun v =>
        "<input type=\"radio\" name=\"" ++ id ++ "\"" ++ " id=\"" ++ id ++ "-"
          ++ Nat.repr i ++ "\" value=\"" ++ v ++ "\"><label for=\"" ++ id ++ "-"
          ++ Nat.repr i ++ "\">" ++ v ++ "</label>")) := by
  refine ⟨?_, ?_, ?_⟩
  · simp [QuestionType.render, customSingle, String.append_assoc]
  · simp [QuestionType.render, customMulti, String.append_assoc]
  · intro i
    simp only [singleOptions, List.getElem?_map, List.getElem?_enum]
    cases answers[i]? <;> simp [String.append_assoc]

/-- C6: a Form with an empty group sequence renders the document wrapper with
no group content inside it, and a Form with one empty-title QuestionSet
containing zero questions renders a non-empty document containing the title
and description and an empty inner content block. -/
theorem form_render_wrapper (t d dq pre : String) :
    Form.render ⟨t, d, []⟩ pre
      = "<html style=\"font-family=sans-serif\"><body><h1>" ++ t ++ "</h1><p>" ++ d
        ++ "</p><div class=\"content\"><pre>" ++ "</pre></div></body></html>"
    ∧ Form.render ⟨t, d, [⟨"", dq, []⟩]⟩ pre
      = "<html style=\"font-family=sans-serif\"><body><h1>" ++ t ++ "</h1><p>" ++ d
        ++ "</p><div class=\"content\"><pre>" ++ "<h2>" ++ "</h2><p>" ++ dq
        ++ "</p><form>" ++ "</form>" ++ "</pre></div></body></html>"
    ∧ Form.render ⟨t, d, [⟨"", dq, []⟩]⟩ pre ≠ "" := by
  have h2 : Form.render ⟨t, d, [⟨"", dq, []⟩]⟩ pre
      = "<html style=\"font-family=sans-serif\"><body><h1>" ++ t ++ "</h1><p>" ++ d
        ++ "</p><div class=\"content\"><pre>" ++ "<h2>" ++ "</h2><p>" ++ dq
        ++ "</p><form>" ++ "</form>" ++ "</pre></div></body></html>" := by
    apply String.ext
    simp [Form.render, QuestionSet.render, childId, intercalate_singleton,
      intercalate_nil, String.data_append, List.append_assoc]
  refine ⟨?_, h2, ?_⟩
  · apply String.ext
    simp [Form.render, intercalate_nil, String.data_append, List.append_assoc]
  · rw [h2]
    intro hc
    have h3 := congrArg String.data hc
    simp only [String.data_append, List.append_assoc] at h3
    exact absurd (List.append_eq_nil.mp h3).1 (by decide)

/-- C1: for bounds with min <= max the DiscreteNumeric renderer produces
exactly (max - min + 1) radio options, ascending by value; the label for
value v is "v (d)" when the description mapping holds v, else the bare
stringified value. -/
theorem discrete_render_options (mn mx : I8) (descs : List (I8 × String))
    (id : String) (h : mn.val ≤ mx.val) :
    (discreteOptions mn mx descs id).length = (mx.val - mn.val + 1).toNat
    ∧ QuestionType.render (.DiscreteNumeric (mn, mx) descs) id
        = String.intercalate "\n" (discreteOptions mn mx descs id)
    ∧ (∀ i : Nat, i < (mx.val - mn.val + 1).toNat →
        (discreteOptions mn mx descs id)[i]?
          = some ("<input type=\"radio\" name=\"" ++ id ++ "\" id=\"" ++ id ++ "-"
              ++ Int.repr (mn.val + (i : Int)) ++ "\" value=\"" ++ Int.repr (mn.val + (i : Int))
              ++ "\"><label for=\"" ++ id ++ "-" ++ Int.repr (mn.val + (i : Int)) ++ "\">"
              ++ stringified descs (mn.val + (i : Int)) ++ "</label>"))
    ∧ (∀ (v : Int) (d : String), lookupKey v descs = some d →
        stringified descs v = Int.repr v ++ " (" ++ d ++ ")")
    ∧ (∀ v : Int, lookupKey v descs = none → stringified descs v = Int.repr v) := by
  refine ⟨?_, rfl, ?_, ?_, ?_⟩
  · simp only [discreteOptions, rangeIncl, List.length_map, List.length_range]
    omega
  · intro i hi
    have hi2 : i < (mx.val + 1 - mn.val).toNat := by omega
    simp only [discreteOptions, rangeIncl, List.getElem?_map]
    rw [List.getElem?_range hi2]
    simp [discreteOption]
  · intro v d hv
    simp [stringified, hv]
  · intro v hv
    simp [stringified, hv]

/-- Witness for C1: bounds (1,10) with descriptions {1: NOPE!, 10: YESSSSH!!!!}
give 10 options and the labels at 1, 5 and 10 from the example. -/
theorem discrete_render_options_witness :
    (discreteOptions ⟨1, by decide⟩ ⟨10, by decide⟩
        [(⟨1, by decide⟩, "NOPE!"), (⟨10, by decide⟩, "YESSSSH!!!!")] "i-0-2").length = 10
    ∧ stringified [(⟨1, by decide⟩, "NOPE!"), (⟨10, by decide⟩, "YESSSSH!!!!")] 1
        = "1 (NOPE!)"
    ∧ stringified [(⟨1, by decide⟩, "NOPE!"), (⟨10, by decide⟩, "YESSSSH!!!!")] 5 = "5"
    ∧ stringified [(⟨1, by decide⟩, "NOPE!"), (⟨10, by decide⟩, "YESSSSH!!!!")] 10
        = "10 (YESSSSH!!!!)" := by
  have h := discrete_render_options ⟨1, by decide⟩ ⟨10, by decide⟩
    [(⟨1, by decide⟩, "NOPE!"), (⟨10, by decide⟩, "YESSSSH!!!!")] "i-0-2" (by decide)
  refine ⟨h.1.trans (by decide), ?_, ?_, ?_⟩
  · exact h.2.2.2.1 1 "NOPE!" (by decide)
  · exact h.2.2.2.2 5 (by decide)
  · exact h.2.2.2.1 10 "YESSSSH!!!!" (by decide)

/-- C3: the identifier scheme appends a separator and the index to the parent
identifier (parent "i-2" with index 1 yields "i-2-1"), and distinct sibling
indices at the same parent yield distinct child identifiers. -/
theorem childId_scheme (p : String) (i j : Nat) (hne : i ≠ j) :
    childId "i-2" 1 = "i-2-1"
    ∧ childId p i = p ++ "-" ++ Nat.repr i
    ∧ childId p i ≠ childId p j := by
  refine ⟨by decide, rfl, ?_⟩
  intro hc
  apply hne
  have h2 := congrArg String.data hc
  simp only [childId, String.data_append, List.append_assoc] at h2
  have h3 := List.append_cancel_left h2
  simp only [List.cons_append, List.nil_append, List.cons.injEq, true_and] at h3
  exact natRepr_inj i j (String.ext h3)

/-- Witness for C3: the worked example and distinctness of siblings 0 and 1. -/
theorem childId_scheme_witness :
    childId "i-2" 1 = "i-2-1" ∧ childId "x" 0 ≠ childId "x" 1 :=
  ⟨(childId_scheme "x" 0 1 (by decide)).1, (childId_scheme "x" 0 1 (by decide)).2.2⟩

/-! ## Equality up to description-map order

Rust holds the `DiscreteNumeric` descriptions in an unordered `HashMap`;
two association lists that agree as lookup functions model the same map. -/

def DescsEquiv (d1 d2 : List (I8 × String)) : Prop :=
  ∀ v : Int, lookupKey v d1 = lookupKey v d2

def QuestionType.Equiv : QuestionType → QuestionType → Prop
  | .DiscreteNumeric b1 d1, .DiscreteNumeric b2 d2 => b1 = b2 ∧ DescsEquiv d1 d2
  | t1, t2 => t1 = t2

def Question.Equiv (q1 q2 : Question) : Prop :=
  q1.title = q2.title ∧ QuestionType.Equiv q1.spec q2.spec

def QuestionSet.Equiv (s1 s2 : QuestionSet) : Prop :=
  s1.title = s2.title ∧ s1.description = s2.description
    ∧ List.Forall₂ Question.Equiv s1.questions s2.questions

def Form.Equiv (f1 f2 : Form) : Prop :=
  f1.title = f2.title ∧ f1.description = f2.description
    ∧ List.Forall₂ QuestionSet.Equiv f1.groups f2.groups

theorem stringified_congr {d1 d2 : List (I8 × String)} (h : DescsEquiv d1 d2)
    (v : Int) : stringified d1 v = stringified d2 v := by
  simp [stringified, h v]

theorem qt_render_congr : ∀ {t1 t2 : QuestionType}, QuestionType.Equiv t1 t2 →
    ∀ id, QuestionType.render t1 id = QuestionType.render t2 id := by
  intro t1 t2 h id
  cases t1 <;> cases t2 <;>
    first
      | exact congrArg (fun t => QuestionType.render t id) h
      | skip
  case DiscreteNumeric.DiscreteNumeric b1 d1 b2 d2 =>
    obtain ⟨hb, hd⟩ := h
    cases hb
    obtain ⟨mn, mx⟩ := b1
    simp only [QuestionType.render, discreteOptions]
    exact congrArg _ (List.map_congr_left (fun v _ => by rw [stringified_congr hd]))

theorem question_render_congr {q1 q2 : Question} (h : Question.Equiv q1 q2)
    (id : String) : q1.render id = q2.render id := by
  obtain ⟨ht, hs⟩ := h
  simp only [Question.render, ht, qt_render_congr hs id]

theorem questions_map_congr (pre : String) :
    ∀ (n : Nat) {xs ys : List Question}, List.Forall₂ Question.Equiv xs ys →
      (List.enumFrom n xs).map (fun p => Question.render p.2 (childId pre p.1))
        = (List.enumFrom n ys).map (fun p => Question.render p.2 (childId pre p.1)) := by
  intro n xs ys h
  induction h generalizing n with
  | nil => rfl
  | cons hab _ ih =>
    simp only [List.enumFrom, List.map_cons]
    rw [question_render_congr hab, ih]

theorem qs_render_congr {s1 s2 : QuestionSet} (h : QuestionSet.Equiv s1 s2)
    (pre : String) : s1.render pre = s2.render pre := by
  obtain ⟨ht, hd, hq⟩ := h
  simp only [QuestionSet.render, ht, hd, List.enum]
  rw [questions_map_congr pre 0 hq]

theorem groups_map_congr (pre : String) :
    ∀ (n : Nat) {xs ys : List QuestionSet}, List.Forall₂ QuestionSet.Equiv xs ys →
      (List.enumFrom n xs).map (fun p => QuestionSet.render p.2 (childId pre p.1))
        = (List.enumFrom n ys).map (fun p => QuestionSet.render p.2 (childId pre p.1)) := by
  intro n xs ys h
  induction h generalizing n with
  | nil => rfl
  | cons hab _ ih =>
    simp only [List.enumFrom, List.map_cons]
    rw [qs_render_congr hab, ih]

/-- C4: rendering is deterministic — a pure function of the tree and the
identifier; in particular two trees that are identical as input (equal up to
the unordered description map of DiscreteNumeric being stored in a different
internal order) render to byte-identical strings. -/
theorem render_deterministic (f g : Form) (pre : String) (h : Form.Equiv f g) :
    f.render pre = g.render pre := by
  obtain ⟨ht, hd, hg⟩ := h
  simp only [Form.render, ht, hd, List.enum]
  rw [groups_map_congr pre 0 hg]

/-- Witness for C4: two forms whose description maps hold the same bindings
in opposite order satisfy the equivalence and render identically. -/
theorem render_deterministic_witness :
    Form.Equiv
      ⟨"T", "D", [⟨"S", "", [⟨"Q", .DiscreteNumeric (⟨1, by decide⟩, ⟨3, by decide⟩)
        [(⟨1, by decide⟩, "a"), (⟨2, by decide⟩, "b")]⟩]⟩]⟩
      ⟨"T", "D", [⟨"S", "", [⟨"Q", .DiscreteNumeric (⟨1, by decide⟩, ⟨3, by decide⟩)
        [(⟨2, by decide⟩, "b"), (⟨1, by decide⟩, "a")]⟩]⟩]⟩
    ∧ Form.render
        ⟨"T", "D", [⟨"S", "", [⟨"Q", .DiscreteNumeric (⟨1, by decide⟩, ⟨3, by decide⟩)
          [(⟨1, by decide⟩, "a"), (⟨2, by decide⟩, "b")]⟩]⟩]⟩ "i"
      = Form.render
        ⟨"T", "D", [⟨"S", "", [⟨"Q", .DiscreteNumeric (⟨1, by decide⟩, ⟨3, by decide⟩)
          [(⟨2, by decide⟩, "b"), (⟨1, by decide⟩, "a")]⟩]⟩]⟩ "i" := by
  have hequiv : Form.Equiv
      ⟨"T", "D", [⟨"S", "", [⟨"Q", .DiscreteNumeric (⟨1, by decide⟩, ⟨3, by decide⟩)
        [(⟨1, by decide⟩, "a"), (⟨2, by decide⟩, "b")]⟩]⟩]⟩
      ⟨"T", "D", [⟨"S", "", [⟨"Q", .DiscreteNumeric (⟨1, by decide⟩, ⟨3, by decide⟩)
        [(⟨2, by decide⟩, "b"), (⟨1, by decide⟩, "a")]⟩]⟩]⟩ := by
    refine ⟨rfl, rfl, List.Forall₂.cons ⟨rfl, rfl, ?_⟩ List.Forall₂.nil⟩
    refine List.Forall₂.cons ⟨rfl, ?_⟩ List.Forall₂.nil
    refine ⟨rfl, ?_⟩
    intro v
    by_cases h1 : (1 : Int) = v <;> by_cases h2 : (2 : Int) = v <;>
      simp [lookupKey, h1, h2] <;> omega
  exact ⟨hequiv, render_deterministic _ _ "i" hequiv⟩

/-! ## Serialization

The structs derive `Serialize`/`Deserialize` with
`#[serde(tag = "type", rename_all = "snake_case")]` on `QuestionType`
(`src/main.rs` lines 11, 33, 56, 68-69); the generated serializer code
itself is not part of the repository, so the declarative on-disk shape is
modelled here from those attributes and from section 6 of the spec. -/

/-- Modelled from the spec: the structured-data tree of the declarative file
format (strings, integers, floats, booleans, null, sequences, mappings). -/
inductive Value where
  | str (s : String)
  | int (n : Int)
  | float (f : F32)
  | bool (b : Bool)
  | null
  | seq (xs : List Value)
  | map (entries : List (Value × Value))

/-- The snake_case discriminator of each `QuestionType` variant, as produced
by `rename_all = "snake_case"` (note the source misspelling
`ContinousNumeric`). -/
def tagOf : QuestionType → String
  | .DiscreteNumeric _ _ => "discrete_numeric"
  | .ContinousNumeric _ => "continous_numeric"
  | .SingleChoice _ _ => "single_choice"
  | .MultipleChoice _ _ => "multiple_choice"
  | .Text _ => "text"

/-- Modelled from the spec: internally tagged serialization of
`QuestionType` — a mapping holding the `type` discriminator first, then the
variant fields in declaration order. -/
def encodeQT : QuestionType → Value
  | .DiscreteNumeric (mn, mx) descs =>
      .map [(.str "type", .str "discrete_numeric"),
            (.str "bounds", .seq [.int mn.val, .int mx.val]),
            (.str "num_descriptions",
              .map (descs.map (fun kv => (Value.int kv.1.val, Value.str kv.2))))]
  | .ContinousNumeric none =>
      .map [(.str "type", .str "continous_numeric"), (.str "bounds", .null)]
  | .ContinousNumeric (some (mn, mx)) =>
      .map [(.str "type", .str "continous_numeric"),
            (.str "bounds", .seq [.float mn, .float mx])]
  | .SingleChoice answers custom_answer =>
      .map [(.str "type", .str "single_choice"),
            (.str "answers", .seq (answers.map Value.str)),
            (.str "custom_answer", .bool custom_answer)]
  | .MultipleChoice answers custom_answer =>
      .map [(.str "type", .str "multiple_choice"),
            (.str "answers", .seq (answers.map Value.str)),
            (.str "custom_answer", .bool custom_answer)]
  | .Text is_long =>
      .map [(.str "type", .str "text"), (.str "is_long", .bool is_long)]

/-- Modelled from the spec: serialization of `Question`, field for field. -/
def encodeQuestion (q : Question) : Value :=
  .map [(.str "title", .str q.title), (.str "spec", encodeQT q.spec)]

/-- Modelled from the spec: serialization of `QuestionSet`, order
preserving. -/
def encodeQS (s : QuestionSet) : Value :=
  .map [(.str "title", .str s.title), (.str "description", .str s.description),
        (.str "questions", .seq (s.questions.map encodeQuestion))]

/-- Modelled from the spec: serialization of `Form`, order preserving. -/
def encodeForm (f : Form) : Value :=
  .map [(.str "title", .str f.title), (.str "description", .str f.description),
        (.str "groups", .seq (f.groups.map encodeQS))]

/-- Sequence deserialization: every element must decode. -/
def mapOption {α β : Type} (f : α → Option β) : List α → Option (List β)
  | [] => some []
  | a :: as =>
    match f a, mapOption f as with
    | some b, some bs => some (b :: bs)
    | _, _ => none

/-- Deserialization of an `i8` scalar, failing out of range. -/
def decodeI8 (v : Value) : Option I8 :=
  match v with
  | .int n => if h : -128 ≤ n ∧ n ≤ 127 then some ⟨n, h⟩ else none
  | _ => none

/-- Deserialization of one `num_descriptions` binding. -/
def decodeDescEntry : Value × Value → Option (I8 × String)
  | (.int n, .str s) =>
      if h : -128 ≤ n ∧ n ≤ 127 then some (⟨n, h⟩, s) else none
  | _ => none

/-- Deserialization of one answer string. -/
def decodeStrEntry : Value → Option String
  | .str s => some s
  | _ => none

/-- Modelled from the spec: deserialization of `QuestionType`, dispatching
on the `type` discriminator. -/
def decodeQT : Value → Option QuestionType
  | .map [(.str "type", .str "discrete_numeric"),
          (.str "bounds", .seq [bmin, bmax]),
          (.str "num_descriptions", .map entries)] =>
      match decodeI8 bmin, decodeI8 bmax, mapOption decodeDescEntry entries with
      | some mn, some mx, some ds => some (.DiscreteNumeric (mn, mx) ds)
      | _, _, _ => none
  | .map [(.str "type", .str "continous_numeric"), (.str "bounds", .null)] =>
      some (.ContinousNumeric none)
  | .map [(.str "type", .str "continous_numeric"),
          (.str "bounds", .seq [.float mn, .float mx])] =>
      some (.ContinousNumeric (some (mn, mx)))
  | .map [(.str "type", .str "single_choice"),
          (.str "answers", .seq answers),
          (.str "custom_answer", .bool c)] =>
      match mapOption decodeStrEntry answers with
      | some xs => some (.SingleChoice xs c)
      | none => none
  | .map [(.str "type", .str "multiple_choice"),
          (.str "answers", .seq answers),
          (.str "custom_answer", .bool c)] =>
      match mapOption decodeStrEntry answers with
      | some xs => some (.MultipleChoice xs c)
      | none => none
  | .map [(.str "type", .str "text"), (.str "is_long", .bool b)] =>
      some (.Text b)
  | _ => none

/-- Modelled from the spec: deserialization of `Question`. -/
def decodeQuestion : Value → Option Question
  | .map [(.str "title", .str t), (.str "spec", sv)] =>
      match decodeQT sv with
      | some s => some ⟨t, s⟩
      | none => none
  | _ => none

/-- Modelled from the spec: deserialization of `QuestionSet`. -/
def decodeQS : Value → Option QuestionSet
  | .map [(.str "title", .str t), (.str "description", .str d),
          (.str "questions", .seq qs)] =>
      match mapOption decodeQuestion qs with
      | some qs2 => some ⟨t, d, qs2⟩
      | none => none
  | _ => none

/-- Modelled from the spec: deserialization of `Form`. -/
def decodeForm : Value → Option Form
  | .map [(.str "title", .str t), (.str "description", .str d),
          (.str "groups", .seq gs)] =>
      match mapOption decodeQS gs with
      | some gs2 => some ⟨t, d, gs2⟩
      | none => none
  | _ => none

theorem mapOption_map {α β : Type} (enc : α → β) (dec : β → Option α)
    (xs : List α) (h : ∀ a ∈ xs, dec (enc a) = some a) :
    mapOption dec (xs.map enc) = some xs := by
  induction xs with
  | nil => rfl
  | cons a as ih =>
    simp only [List.map_cons, mapOption]
    rw [h a (by simp), ih (fun b hb => h b (by simp [hb]))]

theorem decodeI8_enc (x : I8) : decodeI8 (Value.int x.val) = some x := by
  obtain ⟨n, hn⟩ := x
  simp [decodeI8, hn]

theorem decodeDescEntry_enc (kv : I8 × String) :
    decodeDescEntry (Value.int kv.1.val, Value.str kv.2) = some kv := by
  obtain ⟨⟨n, hn⟩, s⟩ := kv
  simp [decodeDescEntry, hn]

theorem decodeQT_encodeQT (t : QuestionType) : decodeQT (encodeQT t) = some t := by
  cases t with
  | DiscreteNumeric b descs =>
    obtain ⟨mn, mx⟩ := b
    have hds := mapOption_map (fun kv => (Value.int kv.1.val, Value.str kv.2))
      decodeDescEntry descs (fun kv _ => decodeDescEntry_enc kv)
    simp [encodeQT, decodeQT, decodeI8_enc, hds]
  | ContinousNumeric b =>
    cases b with
    | none => simp [encodeQT, decodeQT]
    | some p =>
      obtain ⟨x, y⟩ := p
      simp [encodeQT, decodeQT]
  | SingleChoice answers c =>
    have ha := mapOption_map Value.str decodeStrEntry answers (fun s _ => rfl)
    simp [encodeQT, decodeQT, ha]
  | MultipleChoice answers c =>
    have ha := mapOption_map Value.str decodeStrEntry answers (fun s _ => rfl)
    simp [encodeQT, decodeQT, ha]
  | Text b => simp [encodeQT, decodeQT]

theorem decodeQuestion_enc (q : Question) :
    decodeQuestion (encodeQuestion q) = some q := by
  obtain ⟨t, s⟩ := q
  simp [encodeQuestion, decodeQuestion, decodeQT_encodeQT]

theorem decodeQS_enc (s : QuestionSet) : decodeQS (encodeQS s) = some s := by
  obtain ⟨t, d, qs⟩ := s
  have hqs := mapOption_map encodeQuestion decodeQuestion qs
    (fun q _ => decodeQuestion_enc q)
  simp [encodeQS, decodeQS, hqs]

theorem decodeForm_enc (f : Form) : decodeForm (encodeForm f) = some f := by
  obtain ⟨t, d, gs⟩ := f
  have hgs := mapOption_map encodeQS decodeQS gs (fun s _ => decodeQS_enc s)
  simp [encodeForm, decodeForm, hgs]

/-- C8: serializing a specification tree to the declarative file form and
parsing the result back yields a structurally equal tree, field for field
and order preserving, and the serialized QuestionType carries an explicit
discriminator field identifying which of the five variants is present. -/
theorem serialization_roundtrip :
    (∀ f : Form, decodeForm (encodeForm f) = some f)
    ∧ (∀ t : QuestionType, ∃ rest, encodeQT t
        = Value.map ((Value.str "type", Value.str (tagOf t)) :: rest))
    ∧ (∀ b d, tagOf (.DiscreteNumeric b d) = "discrete_numeric")
    ∧ (∀ b, tagOf (.ContinousNumeric b) = "continous_numeric")
    ∧ (∀ a c, tagOf (.SingleChoice a c) = "single_choice")
    ∧ (∀ a c, tagOf (.MultipleChoice a c) = "multiple_choice")
    ∧ (∀ b, tagOf (.Text b) = "text") := by
  refine ⟨decodeForm_enc, ?_, fun _ _ => rfl, fun _ => rfl, fun _ _ => rfl,
    fun _ _ => rfl, fun _ => rfl⟩
  intro t
  cases t with
  | DiscreteNumeric b d =>
    obtain ⟨mn, mx⟩ := b
    exact ⟨_, rfl⟩
  | ContinousNumeric b =>
    cases b with
    | none => exact ⟨_, rfl⟩
    | some p =>
      obtain ⟨x, y⟩ := p
      exact ⟨_, rfl⟩
  | SingleChoice a c => exact ⟨_, rfl⟩
  | MultipleChoice a c => exact ⟨_, rfl⟩
  | Text b => exact ⟨_, rfl⟩

end Umfrage
